import Mathlib

/-!
# libxmljs: the document bridge (src/document.cc)

A shallow embedding of `src/document.cc`: the construction hook that the tree
engine (libxml2) calls on every node it allocates, and the `Document` wrapper
(constructor, `root`, `encoding`, `toString`).

Memory is explicit state.  Addresses are indices into three heaps:

* `State.nodes`    native tree nodes (`xmlNode` / `xmlDoc`), owned by the engine;
* `State.objects`  host (JavaScript) objects, each with one internal field that
                   `ObjectWrap::Wrap` points at the C++ wrapper;
* `State.buffers`  character buffers held by `String::Utf8Value` objects, with a
                   liveness flag (the destructor of a `Utf8Value` releases its buffer).

A computation that has no defined result (a failed `assert`, a dereference of a
null or released pointer, or exhausted recursion fuel) yields `none`.
-/

namespace libxmljs

/-! ## The tree engine's data (libxml/tree.h) -/

/-- Type tags of native nodes (`xmlElementType`). -/
inductive xmlElementType where
  | XML_ELEMENT_NODE
  | XML_ATTRIBUTE_NODE
  | XML_TEXT_NODE
  | XML_CDATA_SECTION_NODE
  | XML_ENTITY_REF_NODE
  | XML_ENTITY_NODE
  | XML_PI_NODE
  | XML_COMMENT_NODE
  | XML_DOCUMENT_NODE
  | XML_DOCUMENT_TYPE_NODE
  | XML_DOCUMENT_FRAG_NODE
  | XML_NOTATION_NODE
  | XML_HTML_DOCUMENT_NODE
  | XML_DTD_NODE
  | XML_ELEMENT_DECL
  | XML_ATTRIBUTE_DECL
  | XML_ENTITY_DECL
  | XML_NAMESPACE_DECL
  | XML_XINCLUDE_START
  | XML_XINCLUDE_END
  | XML_DOCB_DOCUMENT_NODE
  deriving DecidableEq, Repr

/-- A native node.  `xmlDoc` and `xmlNode` share their leading fields (the hook
receives a document as an `xmlNode*`), so one record serves both; `version` and
`encoding` are meaningful on document nodes.  `version` is the engine's own copy
of the text (made by `xmlStrdup`); `encoding` is a bare `const xmlChar*`, here
the address of a character buffer. -/
structure xmlNode where
  type : xmlElementType
  _private : Option Nat
  parent : Option Nat
  children : List Nat
  doc : Option Nat
  version : Option String
  encoding : Option Nat
  deriving DecidableEq, Repr

/-! ## The host engine's data (v8.h, node_object_wrap.h) -/

/-- Host values (`Handle<Value>`). -/
inductive Value where
  | undefined
  | null
  | number (n : Int)
  | str (s : String)
  | func (f : Nat)
  | obj (o : Nat)
  deriving DecidableEq, Repr

/-- The C++ wrapper objects: `Document(xmlDoc*)` and `Element(xmlNode*)`, each
holding its native node in `xml_obj`. -/
inductive Wrapped where
  | Document (xml_obj : Option Nat)
  | Element (xml_obj : Nat)
  deriving DecidableEq, Repr

/-- A host object with its internal field 0 (`SetInternalFieldCount(1)`). -/
structure JSObject where
  internal : Option Wrapped
  deriving DecidableEq, Repr

/-- The character buffer of a `String::Utf8Value`. -/
structure CharBuffer where
  chars : String
  live : Bool
  deriving DecidableEq, Repr

/-- The whole store.  `calls` records every invocation of a user callback
(function, receiver), `hooked` every node the construction hook was fired on. -/
structure State where
  nodes : List xmlNode
  objects : List JSObject
  buffers : List CharBuffer
  calls : List (Value × Nat)
  hooked : List Nat
  deriving DecidableEq, Repr

/-- How a native method ends: it returns a value, or it throws an error with a message. -/
inductive Completion where
  | returned (v : Value) (s : State)
  | threw (message : String) (s : State)
  deriving DecidableEq, Repr

/-- The store with nothing allocated. -/
def State.empty : State :=
  { nodes := [], objects := [], buffers := [], calls := [], hooked := [] }

/-- Overwrite fields of the node at address `p`. -/
def State.updateNode (s : State) (p : Nat) (f : xmlNode → xmlNode) : State :=
  { s with nodes := s.nodes.modify f p }

/-- The back-reference slot `node->_private` (null when the node does not exist). -/
def State.slot (s : State) (p : Nat) : Option Nat :=
  (s.nodes[p]?).bind (fun n => n._private)

/-! ## Strings at the C boundary -/

/-- The terminator of C strings. -/
def NUL : Char := Char.ofNat 0

/-- The C string that starts where `s` starts: the characters before the first
NUL.  This is what `xmlStrlen` measures and `xmlStrdup` copies. -/
def cString (s : String) : String :=
  ⟨s.data.takeWhile (fun c => c != NUL)⟩

/-- The conversion `Value::ToString` on primitive values.  The text of a function
and user-defined conversions of objects are the host engine's business; they get
the default renderings here. -/
def Value.ToString : Value → String
  | .str s => s
  | .undefined => "undefined"
  | .null => "null"
  | .number n => toString n
  | .func _ => "function"
  | .obj _ => "[object Object]"

def Value.IsNull : Value → Bool
  | .null => true
  | _ => false

def Value.IsString : Value → Bool
  | .str _ => true
  | _ => false

def Value.IsFunction : Value → Bool
  | .func _ => true
  | _ => false

/-- The element `args[i]` of an `Arguments` object: `undefined` past the end. -/
def arg (args : List Value) (i : Nat) : Value :=
  args.getD i .undefined

/-- Construction of a `String::Utf8Value`: a fresh live buffer holding the text.
Returns the address of the buffer (`operator*`). -/
def Utf8Value (text : String) (s : State) : Nat × State :=
  (s.buffers.length, { s with buffers := s.buffers ++ [{ chars := text, live := true }] })

/-- Destruction of a `String::Utf8Value`: its buffer is released. -/
def Utf8Value_destroy (p : Nat) (s : State) : State :=
  { s with buffers := s.buffers.modify (fun b => { b with live := false }) p }

/-- Read the C string at address `p`; undefined when the buffer has been released. -/
def readCString (s : State) (p : Nat) : Option String :=
  match s.buffers[p]? with
  | some b => if b.live then some (cString b.chars) else none
  | none => none

/-! ## Host objects -/

/-- A fresh host object whose internal field is still empty. -/
def allocObject (s : State) : Nat × State :=
  (s.objects.length, { s with objects := s.objects ++ [{ internal := none }] })

/-- The call `wrapper->Wrap(handle)`: point the object's internal field at the wrapper. -/
def Wrap (w : Wrapped) (handle : Nat) (s : State) : State :=
  { s with objects := s.objects.modify (fun _ => { internal := some w }) handle }

/-- The lookup `ObjectWrap::Unwrap<Document>(handle)` followed by `assert(document)`
and the use of `document->xml_obj`: the native document behind a Document wrapper. -/
def Unwrap_Document (s : State) (handle : Nat) : Option Nat :=
  match s.objects[handle]? with
  | some { internal := some (.Document (some xml_obj)) } => some xml_obj
  | _ => none

/-- The lookup `ObjectWrap::Unwrap<Element>(handle)` followed by `assert(element)`
and `element->xml_obj`. -/
def Unwrap_Element (s : State) (handle : Nat) : Option Nat :=
  match s.objects[handle]? with
  | some { internal := some (.Element xml_obj) } => some xml_obj
  | _ => none

/-- The call `constructor->NewInstance(argc, argv)`: allocate the receiver, run the
constructor on it, and take the object the constructor returns (the receiver when
it returns no object).  A throwing constructor leaves an empty handle, on which
the caller cannot continue. -/
def NewInstance (ctor : List Value → Nat → State → Option Completion)
    (argv : List Value) (s : State) : Option (Nat × State) :=
  match ctor argv (allocObject s).1 (allocObject s).2 with
  | some (.returned (.obj o) s1) => some (o, s1)
  | some (.returned _ s1) => some ((allocObject s).1, s1)
  | _ => none

/-- Modelled from the spec: the constructor `Element::New` (element.cc, not part of
this file) reached through `Element::constructor_template` with no arguments; the
hook "constructs an Element wrapper", so instantiation yields a fresh host object
and allocates no native node. -/
def Element_NewInstance (s : State) : Nat × State :=
  allocObject s

/-! ## The construction hook -/

/-- The expansion `BUILD_NODE(Element, elem, node)`. -/
def BUILD_NODE_Element (node : Nat) (s : State) : State :=
  let elemJS := (Element_NewInstance s).1
  let s1 := (Element_NewInstance s).2
  let s2 := s1.updateNode node (fun n => { n with _private := some elemJS })
  Wrap (.Element node) elemJS s2

/-- The hook `on_libxml_construct(xmlNode* node)`.  `Document_New` is the function
behind `Document::constructor_template` (installed by `Document::Initialize`). -/
def on_libxml_construct (Document_New : List Value → Nat → State → Option Completion)
    (node : Nat) (s : State) : Option State :=
  match s.nodes[node]? with
  | none => none
  | some n =>
    let s0 := { s with hooked := s.hooked ++ [node] }
    match n.type with
    | .XML_DOCUMENT_NODE =>
      match NewInstance Document_New [Value.null] s0 with
      | none => none
      | some (jsDocument, s1) =>
        let s2 := s1.updateNode node (fun m => { m with _private := some jsDocument })
        some (Wrap (.Document n.doc) jsDocument s2)
    | .XML_ELEMENT_NODE => some (BUILD_NODE_Element node s0)
    | _ => some s0

/-! ## Engine operations used by the bridge (libxml2) -/

/-- A node as `xmlMalloc` and `memset(cur, 0, ...)` leave it, with its type tag set. -/
def zeroed (type : xmlElementType) : xmlNode :=
  { type := type
    _private := none
    parent := none
    children := []
    doc := none
    version := none
    encoding := none }

/-- The allocation `xmlNewDoc(version)`: a zeroed document node with its own copy
of the version text and `doc` pointing at itself, on which the registered node
callback is then fired. -/
def xmlNewDoc (xmlRegisterNodeDefaultValue : Nat → State → Option State)
    (version : Option Nat) (s : State) : Option (Nat × State) :=
  match (match version with
         | none => some "1.0"
         | some p => readCString s p) with
  | none => none
  | some v =>
    let cur := s.nodes.length
    let s1 := { s with nodes := s.nodes ++ [{ zeroed .XML_DOCUMENT_NODE with
                                              doc := some cur, version := some v }] }
    (xmlRegisterNodeDefaultValue cur s1).map (fun s2 => (cur, s2))

/-- The allocation `xmlNewNode(ns, name)`: a zeroed element node, on which the
registered node callback is then fired. -/
def xmlNewNode (xmlRegisterNodeDefaultValue : Nat → State → Option State)
    (s : State) : Option (Nat × State) :=
  let cur := s.nodes.length
  let s1 := { s with nodes := s.nodes ++ [zeroed .XML_ELEMENT_NODE] }
  (xmlRegisterNodeDefaultValue cur s1).map (fun s2 => (cur, s2))

/-- Whether the node at `p` is an element. -/
def isElement (s : State) (p : Nat) : Bool :=
  match s.nodes[p]? with
  | some n => n.type == .XML_ELEMENT_NODE
  | none => false

/-- The query `xmlDocGetRootElement(doc)`: the first child of the document that is an element. -/
def xmlDocGetRootElement (s : State) (doc : Nat) : Option Nat :=
  match s.nodes[doc]? with
  | some d => d.children.find? (fun c => isElement s c)
  | none => none

/-- The operation `xmlUnlinkNode(cur)`: detach the node from its parent. -/
def xmlUnlinkNode (cur : Nat) (s : State) : State :=
  match (s.nodes[cur]?).bind (fun n => n.parent) with
  | some p =>
    (s.updateNode p (fun n => { n with children := n.children.erase cur })).updateNode cur
      (fun n => { n with parent := none })
  | none => s

/-- The operation `xmlReplaceNode(old, cur)` on a child `old` of `doc`: `cur` takes the
place of `old` among the children, `old` is detached. -/
def xmlReplaceNode (doc old cur : Nat) (s : State) : State :=
  (s.updateNode doc (fun n => { n with children := n.children.map (fun c => if c = old then cur else c) })).updateNode
    old (fun n => { n with parent := none })

/-- The operation `xmlDocSetRootElement(doc, root)`: unlink `root` from where it was,
move it into `doc`, and make it the root: in place of the first element child when
there is one, as a new last child otherwise.  (The engine also retargets the `doc`
field of the nodes below `root`; the bridge never reads those.) -/
def xmlDocSetRootElement (doc root : Nat) (s : State) : State :=
  match s.nodes[root]? with
  | none => s
  | some r =>
    if r.type = .XML_NAMESPACE_DECL then s
    else
      let s1 := xmlUnlinkNode root s
      let s2 := s1.updateNode root (fun n => { n with doc := some doc, parent := some doc })
      match (s2.nodes[doc]?).bind (fun d => d.children.find? (fun c => isElement s2 c)) with
      | none => s2.updateNode doc (fun n => { n with children := n.children ++ [root] })
      | some old => xmlReplaceNode doc old root s2

/-! ## Document (src/document.cc) -/

/-- The method `Document::set_encoding`: store the pointer itself in `xml_obj->encoding`. -/
def set_encoding (document : Nat) (encoding : Nat) (s : State) : State :=
  s.updateNode document (fun n => { n with encoding := some encoding })

/-- The method `Document::get_encoding`: the C string `xml_obj->encoding` points at,
or null when the pointer is null. -/
def get_encoding (document : Nat) (s : State) : Option Value :=
  match s.nodes[document]? with
  | none => none
  | some d =>
    match d.encoding with
    | some p => (readCString s p).map Value.str
    | none => some Value.null

/-- The method `Document::to_string`.  The dump itself is the engine's work
(`xmlDocDumpFormatMemoryEnc(doc, &buffer, &len, txt_encoding, format)`), taken as a
function of the store, the document, the requested encoding and the format flag. -/
def to_string (xmlDocDumpFormatMemoryEnc : State → Nat → String → Int → String)
    (document : Nat) (s : State) : Value :=
  Value.str (xmlDocDumpFormatMemoryEnc s document "UTF-8" 0)

/-- The method `Document::has_root`. -/
def has_root (document : Nat) (s : State) : Bool :=
  (xmlDocGetRootElement s document).isSome

/-- The method `Document::get_root`: the handle stored in the root's `_private`, or
null without a root.  (A null `_private` gives an empty handle, which the host
sees as `undefined`.) -/
def get_root (document : Nat) (s : State) : Value :=
  match xmlDocGetRootElement s document with
  | some root =>
    match s.slot root with
    | some o => Value.obj o
    | none => Value.undefined
  | none => Value.null

/-- The method `Document::set_root`. -/
def set_root (document : Nat) (node : Nat) (s : State) : State :=
  xmlDocSetRootElement document node s

/-- The handler `Document::Encoding`.  The `String::Utf8Value encoding` is a local of
the handler: it is destroyed when the handler returns. -/
def Encoding (args : List Value) (This : Nat) (s : State) : Option Completion :=
  match Unwrap_Document s This with
  | none => none
  | some document =>
    if args.length = 0 then
      (get_encoding document s).map (fun v => Completion.returned v s)
    else
      let encoding := (Utf8Value (arg args 0).ToString s).1
      let s1 := (Utf8Value (arg args 0).ToString s).2
      let s2 := set_encoding document encoding s1
      some (Completion.returned (Value.obj This) (Utf8Value_destroy encoding s2))

/-- The handler `Document::Root`. -/
def Root (args : List Value) (This : Nat) (s : State) : Option Completion :=
  match Unwrap_Document s This with
  | none => none
  | some document =>
    if args.length = 0 then
      some (Completion.returned (get_root document s) s)
    else if has_root document s then
      some (Completion.threw "This document already has a root node" s)
    else
      match arg args 0 with
      | Value.obj o =>
        match Unwrap_Element s o with
        | some xml_obj => some (Completion.returned (arg args 0) (set_root document xml_obj s))
        | none => none
      | _ => none

/-- The handler `Document::ToString`. -/
def ToString (xmlDocDumpFormatMemoryEnc : State → Nat → String → Int → String)
    (This : Nat) (s : State) : Option Completion :=
  match Unwrap_Document s This with
  | none => none
  | some document => some (Completion.returned (to_string xmlDocDumpFormatMemoryEnc document s) s)

/-- What the `switch (args.Length())` of `Document::New` decides. -/
inductive Switch where
  | returnThis
  | throwException (message : String)
  | proceed (version encoding : Option Nat) (callback : Option Value) (s : State)
  deriving DecidableEq, Repr

/-- Modelled from the spec: `LIBXMLJS_THROW_EXCEPTION` is defined in libxmljs.h, which
is not part of this file; by the spec the error is "reported as a thrown/returned
error carrying a descriptive message" and "does not corrupt internal state", so the
handler ends there with the message and the store as it was on entry. -/
def LIBXMLJS_THROW_EXCEPTION (err : String) : Switch :=
  Switch.throwException err

/-- The `switch (args.Length())` of `Document::New`.  Each `new String::Utf8Value`
allocates a buffer that is never deleted. -/
def New_switch (args : List Value) (s : State) : Switch :=
  match args with
  | [] => Switch.proceed none none none s
  | [a0] =>
    if a0.IsNull then Switch.returnThis
    else if a0.IsString then
      let version := Utf8Value a0.ToString s
      Switch.proceed (some version.1) none none version.2
    else if a0.IsFunction then
      Switch.proceed none none (some a0) s
    else
      LIBXMLJS_THROW_EXCEPTION "Bad argument: newDocument([version]) or newDocument([callback])"
  | [a0, a1] =>
    if a0.IsString && a1.IsString then
      let version := Utf8Value a0.ToString s
      let encoding := Utf8Value a1.ToString version.2
      Switch.proceed (some version.1) (some encoding.1) none encoding.2
    else if a0.IsString && a1.IsFunction then
      let version := Utf8Value a0.ToString s
      Switch.proceed (some version.1) none (some a1) version.2
    else
      LIBXMLJS_THROW_EXCEPTION
        "Bad argument: newDocument([version], [encoding]) or newDocument([version], [callback])"
  | a0 :: a1 :: a2 :: _ =>
    if a0.IsString && a1.IsString && a2.IsFunction then
      let version := Utf8Value a0.ToString s
      let encoding := Utf8Value a1.ToString version.2
      Switch.proceed (some version.1) (some encoding.1) (some a2) encoding.2
    else
      LIBXMLJS_THROW_EXCEPTION "Bad argument: newDocument([version], [encoding], [callback])"

/-- The invocation `callback->Call(obj, 1, argv)` with `argv = [obj]`.  The callback is
the caller's code: the invocation is recorded, and whatever the callback then does
to the document it does through the handlers of this file. -/
def Call (callback : Value) (obj : Nat) (s : State) : State :=
  { s with calls := s.calls ++ [(callback, obj)] }

/-- The constructor `Document::New`, called with `args` on the receiver `This`.  The
hook instantiates the Document template, which runs this constructor again, so the
definition is recursive; `fuel` bounds the nesting of constructor activations. -/
def New : Nat → List Value → Nat → State → Option Completion
  | 0, _, _, _ => none
  | fuel + 1, args, This, s =>
    match New_switch args s with
    | Switch.returnThis => some (Completion.returned (Value.obj This) s)
    | Switch.throwException message => some (Completion.threw message s)
    | Switch.proceed version encoding callback s1 =>
      let v := match version with
        | some p => (p, s1)
        | none => Utf8Value "1.0" s1
      match xmlNewDoc (on_libxml_construct (New fuel)) (some v.1) v.2 with
      | none => none
      | some (doc, s3) =>
        match s3.slot doc with
        | none => none
        | some obj =>
          match Unwrap_Document s3 obj with
          | none => none
          | some document =>
            let s4 := match encoding with
              | some e => set_encoding document e s3
              | none => s3
            let s5 := match callback with
              | some f => Call f obj s4
              | none => s4
            some (Completion.returned (Value.obj obj) s5)

/-! ## Vocabulary of the specification -/

/-- The call shapes the interface documents: (version), (callback), (version, encoding),
(version, callback), (version, encoding, callback), where version and encoding are
strings and callback is a function. -/
def documentedShape : List Value → Bool
  | [v] => v.IsString || v.IsFunction
  | [v, e] => v.IsString && (e.IsString || e.IsFunction)
  | [v, e, c] => v.IsString && e.IsString && c.IsFunction
  | _ => false

/-- The version string a call supplies, if any: a leading string argument. -/
def suppliedVersion : List Value → Option String
  | Value.str v :: _ => some v
  | _ => none

/-- The encoding string a call supplies, if any: a string in second position. -/
def suppliedEncoding : List Value → Option String
  | _ :: Value.str e :: _ => some e
  | _ => none

/-- A "Bad argument" error naming the call shapes: the message announces a bad argument
and goes on with the `newDocument(...)` forms. -/
def badArgument (message : String) : Bool :=
  "Bad argument: newDocument(".data.isPrefixOf message.data

/-- The store after `xmlNewDoc` and the hook on the new document node. -/
def constructed (text : String) (s : State) : State :=
  { s with
    nodes := s.nodes ++ [{ zeroed .XML_DOCUMENT_NODE with
                           doc := some s.nodes.length
                           version := some text
                           _private := some s.objects.length }]
    objects := s.objects ++ [{ internal := some (.Document (some s.nodes.length)) }]
    hooked := s.hooked ++ [s.nodes.length] }

/-- The store `Document::New` leaves behind once its argument switch has been passed. -/
def built (text : String) (encoding : Option Nat) (callback : Option Value) (s : State) : State :=
  let s3 := constructed text s
  let s4 := match encoding with
    | some e => set_encoding s.nodes.length e s3
    | none => s3
  match callback with
  | some f => Call f s.objects.length s4
  | none => s4

/-- The version buffer `Document::New` hands to `xmlNewDoc`. -/
def versionBuffer (version : Option Nat) (s1 : State) : Nat × State :=
  match version with
  | some p => (p, s1)
  | none => Utf8Value "1.0" s1

/-- The document node an accepted call of `Document::New` creates. -/
def newDocNode (args : List Value) (s : State) : xmlNode :=
  { zeroed .XML_DOCUMENT_NODE with
    doc := some s.nodes.length
    version := some (cString ((suppliedVersion args).getD "1.0"))
    _private := some s.objects.length
    encoding := match suppliedEncoding args with
      | some _ => some (s.buffers.length + 1)
      | none => none }

/-! ## Concrete stores -/

/-- The store after `new Document()` on the empty store. -/
def docState : State :=
  { nodes := [{ zeroed .XML_DOCUMENT_NODE with
                doc := some 0
                version := some "1.0"
                _private := some 0 }]
    objects := [{ internal := some (.Document (some 0)) }]
    buffers := [{ chars := "1.0", live := true }]
    calls := []
    hooked := [0] }

/-- The store after `new Document("1.0", "UTF-16")` on the empty store. -/
def utf16State : State :=
  { nodes := [{ zeroed .XML_DOCUMENT_NODE with
                doc := some 0
                version := some "1.0"
                _private := some 0
                encoding := some 1 }]
    objects := [{ internal := some (.Document (some 0)) }]
    buffers := [{ chars := "1.0", live := true }, { chars := "UTF-16", live := true }]
    calls := []
    hooked := [0] }

/-- The store `docState` after `encoding("UTF-16")`: the document points at a released buffer. -/
def staleState : State :=
  { nodes := [{ zeroed .XML_DOCUMENT_NODE with
                doc := some 0
                version := some "1.0"
                _private := some 0
                encoding := some 1 }]
    objects := [{ internal := some (.Document (some 0)) }]
    buffers := [{ chars := "1.0", live := true }, { chars := "UTF-16", live := false }]
    calls := []
    hooked := [0] }

/-- The store after the engine allocates one element on the empty store. -/
def elementState : State :=
  { nodes := [{ zeroed .XML_ELEMENT_NODE with _private := some 0 }]
    objects := [{ internal := some (.Element 0) }]
    buffers := []
    calls := []
    hooked := [0] }

/-- The store `docState` after the engine allocates two elements (nodes 1 and 2, wrappers 1 and 2). -/
def twoElementsState : State :=
  { nodes := [{ zeroed .XML_DOCUMENT_NODE with
                doc := some 0
                version := some "1.0"
                _private := some 0 },
              { zeroed .XML_ELEMENT_NODE with _private := some 1 },
              { zeroed .XML_ELEMENT_NODE with _private := some 2 }]
    objects := [{ internal := some (.Document (some 0)) }, { internal := some (.Element 1) },
                { internal := some (.Element 2) }]
    buffers := [{ chars := "1.0", live := true }]
    calls := []
    hooked := [0, 1, 2] }

/-- The store `twoElementsState` after `root(e1)` with `e1` the wrapper of node 1. -/
def rootedState : State :=
  { nodes := [{ zeroed .XML_DOCUMENT_NODE with
                doc := some 0
                version := some "1.0"
                _private := some 0
                children := [1] },
              { zeroed .XML_ELEMENT_NODE with
                _private := some 1
                parent := some 0
                doc := some 0 },
              { zeroed .XML_ELEMENT_NODE with _private := some 2 }]
    objects := [{ internal := some (.Document (some 0)) }, { internal := some (.Element 1) },
                { internal := some (.Element 2) }]
    buffers := [{ chars := "1.0", live := true }]
    calls := []
    hooked := [0, 1, 2] }

/-- An engine stub that answers a dump request with the name of the requested encoding. -/
def echoEncoding : State → Nat → String → Int → String :=
  fun _ _ txt_encoding _ => txt_encoding

/-! ## Auxiliary lemmas -/

/-! ### Lists as heaps -/

theorem modify_append_length {α : Type} (f : α → α) (l : List α) (a : α) :
    (l ++ [a]).modify f l.length = l ++ [f a] := by
  induction l with
  | nil => rfl
  | cons x xs ih => simp [List.modify_succ_cons, ih]

theorem getElem?_snoc_snoc_fst {α : Type} (l : List α) (a b : α) :
    ((l ++ [a]) ++ [b])[l.length]? = some a := by
  rw [List.append_assoc, List.getElem?_append_right (Nat.le_refl _)]
  simp

theorem getElem?_snoc_snoc_snd {α : Type} (l : List α) (a b : α) :
    ((l ++ [a]) ++ [b])[l.length + 1]? = some b := by
  have := List.getElem?_concat_length (l ++ [a]) b
  simpa using this

theorem getElem?_append_pair_snd {α : Type} (l : List α) (a b : α) :
    (l ++ [a, b])[l.length + 1]? = some b := by
  have := getElem?_snoc_snoc_snd l a b
  simpa using this

theorem nodes_updateNode (s : State) (p q : Nat) (f : xmlNode → xmlNode) :
    (s.updateNode p f).nodes[q]? = (s.nodes[q]?).map (fun a => if p = q then f a else a) := by
  simp [State.updateNode, List.getElem?_modify]

theorem objects_updateNode (s : State) (p : Nat) (f : xmlNode → xmlNode) :
    (s.updateNode p f).objects = s.objects := rfl

theorem isElement_updateNode (s : State) (p : Nat) (f : xmlNode → xmlNode)
    (hf : ∀ n, (f n).type = n.type) (q : Nat) :
    isElement (s.updateNode p f) q = isElement s q := by
  unfold isElement
  rw [nodes_updateNode]
  cases s.nodes[q]? with
  | none => rfl
  | some a =>
    by_cases hpq : p = q <;> simp [hpq, hf]

theorem slot_updateNode (s : State) (p : Nat) (f : xmlNode → xmlNode)
    (hf : ∀ n, (f n)._private = n._private) (q : Nat) :
    (s.updateNode p f).slot q = s.slot q := by
  unfold State.slot
  rw [nodes_updateNode]
  cases s.nodes[q]? with
  | none => rfl
  | some a =>
    by_cases hpq : p = q <;> simp [hpq, hf]

theorem isElement_of_type (s : State) (q : Nat) (n : xmlNode) (h : s.nodes[q]? = some n) :
    isElement s q = (n.type == .XML_ELEMENT_NODE) := by
  simp [isElement, h]

/-! ## C strings -/

theorem cString_default : cString "1.0" = "1.0" := by decide

theorem readCString_of_get (s : State) (p : Nat) (t : String)
    (h : s.buffers[p]? = some { chars := t, live := true }) :
    readCString s p = some (cString t) := by
  simp [readCString, h]

/-! ## The hook -/

theorem New_null (fuel : Nat) (This : Nat) (s : State) :
    New (fuel + 1) [Value.null] This s = some (Completion.returned (Value.obj This) s) := by
  simp [New, New_switch, Value.IsNull]

theorem hook_document (fuel : Nat) (node : Nat) (s : State) (n : xmlNode)
    (h : s.nodes[node]? = some n) (ht : n.type = .XML_DOCUMENT_NODE) :
    ∃ s1, on_libxml_construct (New (fuel + 1)) node s = some s1
      ∧ s1.slot node = some s.objects.length
      ∧ s1.objects = s.objects ++ [{ internal := some (.Document n.doc) }]
      ∧ s1.hooked = s.hooked ++ [node]
      ∧ s1.nodes.length = s.nodes.length := by
  simp [on_libxml_construct, h, ht, NewInstance, New_null, allocObject, Wrap, State.updateNode,
    modify_append_length, State.slot, List.getElem?_modify]

theorem hook_element (ctor : List Value → Nat → State → Option Completion)
    (node : Nat) (s : State) (n : xmlNode)
    (h : s.nodes[node]? = some n) (ht : n.type = .XML_ELEMENT_NODE) :
    ∃ s1, on_libxml_construct ctor node s = some s1
      ∧ s1.slot node = some s.objects.length
      ∧ s1.objects = s.objects ++ [{ internal := some (.Element node) }]
      ∧ s1.hooked = s.hooked ++ [node]
      ∧ s1.nodes.length = s.nodes.length := by
  simp [on_libxml_construct, h, ht, BUILD_NODE_Element, Element_NewInstance, allocObject, Wrap,
    State.updateNode, modify_append_length, State.slot, List.getElem?_modify]

theorem hook_other (ctor : List Value → Nat → State → Option Completion)
    (node : Nat) (s : State) (n : xmlNode)
    (h : s.nodes[node]? = some n) (hd : n.type ≠ .XML_DOCUMENT_NODE)
    (he : n.type ≠ .XML_ELEMENT_NODE) :
    on_libxml_construct ctor node s = some { s with hooked := s.hooked ++ [node] } := by
  simp only [on_libxml_construct, h]

/-! ## The constructor -/

theorem xmlNewDoc_hook (fuel : Nat) (p : Nat) (text : String) (s : State)
    (h : readCString s p = some text) :
    xmlNewDoc (on_libxml_construct (New (fuel + 1))) (some p) s
      = some (s.nodes.length, constructed text s) := by
  simp [xmlNewDoc, h, on_libxml_construct, NewInstance, New_null, allocObject, Wrap,
    State.updateNode, modify_append_length, constructed, zeroed]

theorem New_proceed (fuel : Nat) (args : List Value) (This : Nat) (s s1 : State)
    (version encoding : Option Nat) (callback : Option Value) (text : String)
    (hsw : New_switch args s = Switch.proceed version encoding callback s1)
    (hv : readCString (versionBuffer version s1).2 (versionBuffer version s1).1 = some text) :
    New (fuel + 2) args This s
      = some (Completion.returned (Value.obj (versionBuffer version s1).2.objects.length)
          (built text encoding callback (versionBuffer version s1).2)) := by
  rw [New, hsw]
  simp only
  have := xmlNewDoc_hook fuel _ text _ hv
  unfold versionBuffer at this hv ⊢
  cases version <;> cases encoding <;> cases callback <;>
    simp_all [State.slot, constructed, Unwrap_Document, built, set_encoding, Call,
      State.updateNode, Utf8Value]

theorem IsString_iff (v : Value) : v.IsString = true ↔ ∃ t, v = Value.str t := by
  cases v <;> simp [Value.IsString]

theorem IsFunction_iff (v : Value) : v.IsFunction = true ↔ ∃ f, v = Value.func f := by
  cases v <;> simp [Value.IsFunction]

theorem shape_cases (args : List Value) (h : args = [] ∨ documentedShape args = true) :
    args = [] ∨ (∃ v, args = [Value.str v]) ∨ (∃ f, args = [Value.func f]) ∨
    (∃ v e, args = [Value.str v, Value.str e]) ∨ (∃ v f, args = [Value.str v, Value.func f]) ∨
    (∃ v e f, args = [Value.str v, Value.str e, Value.func f]) := by
  rcases h with h | h
  · exact Or.inl h
  · match args, h with
    | [a], h =>
      simp only [documentedShape, Bool.or_eq_true, IsString_iff, IsFunction_iff] at h
      rcases h with ⟨t, rfl⟩ | ⟨f, rfl⟩
      · exact Or.inr (Or.inl ⟨t, rfl⟩)
      · exact Or.inr (Or.inr (Or.inl ⟨f, rfl⟩))
    | [a, b], h =>
      simp only [documentedShape, Bool.and_eq_true, Bool.or_eq_true, IsString_iff,
        IsFunction_iff] at h
      rcases h with ⟨⟨t, rfl⟩, ⟨e, rfl⟩ | ⟨f, rfl⟩⟩
      · exact Or.inr (Or.inr (Or.inr (Or.inl ⟨t, e, rfl⟩)))
      · exact Or.inr (Or.inr (Or.inr (Or.inr (Or.inl ⟨t, f, rfl⟩))))
    | [a, b, c], h =>
      simp only [documentedShape, Bool.and_eq_true, IsString_iff, IsFunction_iff] at h
      rcases h with ⟨⟨⟨t, rfl⟩, ⟨e, rfl⟩⟩, ⟨f, rfl⟩⟩
      exact Or.inr (Or.inr (Or.inr (Or.inr (Or.inr ⟨t, e, f, rfl⟩))))

/-- What the argument switch and the version buffer look like on an accepted call, and
what the store built from them contains. -/
theorem switch_accepted (args : List Value) (s : State)
    (h : args = [] ∨ documentedShape args = true) :
    ∃ version encoding callback s1 text,
      New_switch args s = Switch.proceed version encoding callback s1
      ∧ readCString (versionBuffer version s1).2 (versionBuffer version s1).1 = some text
      ∧ (versionBuffer version s1).2.objects.length = s.objects.length
      ∧ (built text encoding callback (versionBuffer version s1).2).nodes
          = s.nodes ++ [newDocNode args s]
      ∧ (built text encoding callback (versionBuffer version s1).2).objects
          = s.objects ++ [{ internal := some (.Document (some s.nodes.length)) }]
      ∧ (built text encoding callback (versionBuffer version s1).2).hooked
          = s.hooked ++ [s.nodes.length]
      ∧ (∀ e, suppliedEncoding args = some e →
          readCString (built text encoding callback (versionBuffer version s1).2)
            (s.buffers.length + 1) = some (cString e)) := by
  rcases shape_cases args h with rfl | ⟨v, rfl⟩ | ⟨f, rfl⟩ | ⟨v, e, rfl⟩ | ⟨v, f, rfl⟩ | ⟨v, e, f, rfl⟩
  · refine ⟨none, none, none, s, "1.0", ?_, ?_, ?_⟩
    · simp [New_switch]
    · simp [versionBuffer, Utf8Value, readCString, cString_default]
    · simp [built, constructed, versionBuffer, Utf8Value, newDocNode, suppliedVersion,
        suppliedEncoding, cString_default, zeroed]
  · refine ⟨some s.buffers.length, none, none, (Utf8Value v s).2, cString v, ?_, ?_, ?_⟩
    · simp [New_switch, Value.IsNull, Value.IsString, Value.ToString, Utf8Value]
    · simp [versionBuffer, Utf8Value, readCString]
    · simp [built, constructed, versionBuffer, Utf8Value, newDocNode, suppliedVersion,
        suppliedEncoding, zeroed]
  · refine ⟨none, none, some (Value.func f), s, "1.0", ?_, ?_, ?_⟩
    · simp [New_switch, Value.IsNull, Value.IsString, Value.IsFunction]
    · simp [versionBuffer, Utf8Value, readCString, cString_default]
    · simp [built, constructed, versionBuffer, Utf8Value, newDocNode, suppliedVersion,
        suppliedEncoding, cString_default, zeroed, Call]
  · refine ⟨some s.buffers.length, some (s.buffers.length + 1), none,
      (Utf8Value e (Utf8Value v s).2).2, cString v, ?_, ?_, ?_⟩
    · simp [New_switch, Value.IsString, Value.ToString, Utf8Value]
    · exact readCString_of_get _ _ _ (getElem?_snoc_snoc_fst _ _ _)
    · simp [built, constructed, versionBuffer, Utf8Value, newDocNode, suppliedVersion,
        suppliedEncoding, zeroed, set_encoding, State.updateNode, modify_append_length]
      exact readCString_of_get _ _ _ (getElem?_append_pair_snd _ _ _)
  · refine ⟨some s.buffers.length, none, some (Value.func f), (Utf8Value v s).2, cString v,
      ?_, ?_, ?_⟩
    · simp [New_switch, Value.IsString, Value.IsFunction, Value.ToString, Utf8Value]
    · simp [versionBuffer, Utf8Value, readCString]
    · simp [built, constructed, versionBuffer, Utf8Value, newDocNode, suppliedVersion,
        suppliedEncoding, zeroed, Call]
  · refine ⟨some s.buffers.length, some (s.buffers.length + 1), some (Value.func f),
      (Utf8Value e (Utf8Value v s).2).2, cString v, ?_, ?_, ?_⟩
    · simp [New_switch, Value.IsString, Value.IsFunction, Value.ToString, Utf8Value]
    · exact readCString_of_get _ _ _ (getElem?_snoc_snoc_fst _ _ _)
    · simp [built, constructed, versionBuffer, Utf8Value, newDocNode, suppliedVersion,
        suppliedEncoding, zeroed, set_encoding, State.updateNode, modify_append_length, Call]
      exact readCString_of_get _ _ _ (getElem?_append_pair_snd _ _ _)

/-- An accepted call returns, with any fuel from two on, the wrapper the hook made for
the one document node it allocated. -/
theorem New_accepted (fuel : Nat) (args : List Value) (This : Nat) (s : State)
    (h : args = [] ∨ documentedShape args = true) :
    ∃ s1, New (fuel + 2) args This s = some (Completion.returned (Value.obj s.objects.length) s1)
      ∧ New 2 args This s = some (Completion.returned (Value.obj s.objects.length) s1)
      ∧ s1.nodes = s.nodes ++ [newDocNode args s]
      ∧ s1.objects = s.objects ++ [{ internal := some (.Document (some s.nodes.length)) }]
      ∧ s1.hooked = s.hooked ++ [s.nodes.length]
      ∧ (∀ e, suppliedEncoding args = some e →
          readCString s1 (s.buffers.length + 1) = some (cString e)) := by
  obtain ⟨version, encoding, callback, s1, text, hsw, hv, hlen, hn, ho, hh, he⟩ :=
    switch_accepted args s h
  refine ⟨_, ?_, ?_, hn, ho, hh, he⟩
  · rw [New_proceed fuel args This s s1 version encoding callback text hsw hv, hlen]
  · rw [New_proceed 0 args This s s1 version encoding callback text hsw hv, hlen]

/-! ## The root element -/

theorem isElement_unlink (cur : Nat) (s : State) (q : Nat) :
    isElement (xmlUnlinkNode cur s) q = isElement s q := by
  unfold xmlUnlinkNode
  split
  · rw [isElement_updateNode, isElement_updateNode]
    all_goals intro n; rfl
  · rfl

theorem slot_unlink (cur : Nat) (s : State) (q : Nat) :
    (xmlUnlinkNode cur s).slot q = s.slot q := by
  unfold xmlUnlinkNode
  split
  · rw [slot_updateNode, slot_updateNode]
    all_goals intro n; rfl
  · rfl

theorem objects_unlink (cur : Nat) (s : State) : (xmlUnlinkNode cur s).objects = s.objects := by
  unfold xmlUnlinkNode
  split <;> rfl

/-- After unlinking `cur`, a node other than `cur` keeps its type and its children, except
that `cur` may have gone from the children. -/
theorem node_unlink (cur : Nat) (s : State) (q : Nat) (d : xmlNode)
    (hq : s.nodes[q]? = some d) (hne : q ≠ cur) :
    ∃ d1, (xmlUnlinkNode cur s).nodes[q]? = some d1 ∧ d1.type = d.type ∧
      (d1.children = d.children ∨ d1.children = d.children.erase cur) := by
  unfold xmlUnlinkNode
  split
  · rename_i p hp
    rw [nodes_updateNode, nodes_updateNode, hq]
    by_cases hpq : p = q
    · simp [hpq, Ne.symm hne]
    · simp [hpq, Ne.symm hne]
  · exact ⟨d, hq, rfl, Or.inl rfl⟩

theorem set_root_rootless (s : State) (document n1 : Nat) (d r : xmlNode)
    (hd : s.nodes[document]? = some d) (hdt : d.type = .XML_DOCUMENT_NODE)
    (hr : s.nodes[n1]? = some r) (hrt : r.type = .XML_ELEMENT_NODE)
    (hroot : xmlDocGetRootElement s document = none) :
    xmlDocGetRootElement (set_root document n1 s) document = some n1
      ∧ (set_root document n1 s).objects = s.objects
      ∧ (∀ q, (set_root document n1 s).slot q = s.slot q) := by
  have hne : document ≠ n1 := by
    intro h
    rw [h, hr] at hd
    injection hd with hd
    rw [hd, hdt] at hrt
    exact absurd hrt (by decide)
  obtain ⟨d1, hd1, _, hch⟩ := node_unlink n1 s document d hd hne
  have hnone : ∀ x ∈ d1.children, isElement s x = false := by
    intro x hx
    have hx' : x ∈ d.children := by
      rcases hch with h | h
      · rw [h] at hx; exact hx
      · rw [h] at hx; exact List.mem_of_mem_erase hx
    simp only [xmlDocGetRootElement, hd] at hroot
    have := List.find?_eq_none.mp hroot x hx'
    simpa using this
  have he1 : isElement s n1 = true := by
    rw [isElement_of_type s n1 r hr, hrt]; rfl
  -- the store after unlinking and re-parenting `n1`
  have hs2 : ∀ q, isElement ((xmlUnlinkNode n1 s).updateNode n1
      (fun n => { n with doc := some document, parent := some document })) q = isElement s q := by
    intro q
    rw [isElement_updateNode, isElement_unlink]
    intro n; rfl
  have hd2 : ((xmlUnlinkNode n1 s).updateNode n1
      (fun n => { n with doc := some document, parent := some document })).nodes[document]? = some d1 := by
    rw [nodes_updateNode, hd1]
    simp [Ne.symm hne]
  have hfind : d1.children.find? (fun c => isElement ((xmlUnlinkNode n1 s).updateNode n1
      (fun n => { n with doc := some document, parent := some document })) c) = none := by
    rw [List.find?_eq_none]
    intro x hx
    rw [hs2, hnone x hx]
    simp
  have hset : set_root document n1 s = ((xmlUnlinkNode n1 s).updateNode n1
      (fun n => { n with doc := some document, parent := some document })).updateNode document
      (fun n => { n with children := n.children ++ [n1] }) := by
    unfold set_root xmlDocSetRootElement
    rw [hr]
    simp only [hrt]
    rw [if_neg (by decide)]
    simp only [hd2, Option.some_bind, hfind]
  rw [hset]
  refine ⟨?_, ?_, ?_⟩
  · unfold xmlDocGetRootElement
    rw [nodes_updateNode, hd2]
    simp only [Option.map_some', if_true]
    rw [List.find?_append]
    have hfind2 : d1.children.find? (fun c => isElement (((xmlUnlinkNode n1 s).updateNode n1
        (fun n => { n with doc := some document, parent := some document })).updateNode document
        (fun n => { n with children := n.children ++ [n1] })) c) = none := by
      rw [List.find?_eq_none]
      intro x hx
      rw [isElement_updateNode, hs2, hnone x hx]
      · simp
      · intro n; rfl
    rw [hfind2]
    have he2 : isElement (((xmlUnlinkNode n1 s).updateNode n1
        (fun n => { n with doc := some document, parent := some document })).updateNode document
        (fun n => { n with children := n.children ++ [n1] })) n1 = true := by
      rw [isElement_updateNode, hs2, he1]
      intro n; rfl
    simp [he2]
  · rw [objects_updateNode, objects_updateNode, objects_unlink]
  · intro q
    rw [slot_updateNode, slot_updateNode, slot_unlink]
    all_goals intro n; rfl

/-! ## Rejected calls -/

theorem New_switch_rejected (args : List Value) (s : State)
    (h1 : 1 ≤ args.length) (h3 : args.length ≤ 3) (hn : args ≠ [Value.null])
    (hs : documentedShape args = false) :
    ∃ message, New_switch args s = Switch.throwException message ∧ badArgument message = true := by
  match args, h1, h3, hn, hs with
  | [a], _, _, hn, hs =>
    cases a <;> first
      | exact absurd rfl hn
      | exact ⟨_, rfl, rfl⟩
      | simp [documentedShape, Value.IsString, Value.IsFunction] at hs
  | [a, b], _, _, _, hs =>
    cases a <;> cases b <;> first
      | exact ⟨_, rfl, rfl⟩
      | simp [documentedShape, Value.IsString, Value.IsFunction] at hs
  | [a, b, c], _, _, _, hs =>
    cases a <;> cases b <;> cases c <;> first
      | exact ⟨_, rfl, rfl⟩
      | simp [documentedShape, Value.IsString, Value.IsFunction] at hs

/-! ## The claims -/

/-- C2 (single root).  On a document without a root, `root(e1)` with an element wrapper
`e1` (registered by the hook on its element node) succeeds; after it, `root(e2)` with
any argument throws and leaves the store untouched, and `root()` still returns `e1`. -/
theorem second_root_fails (s : State) (This document e1 n1 : Nat) (d r : xmlNode) (e2 : Value)
    (hThis : Unwrap_Document s This = some document)
    (hd : s.nodes[document]? = some d) (hdt : d.type = .XML_DOCUMENT_NODE)
    (he : Unwrap_Element s e1 = some n1)
    (hr : s.nodes[n1]? = some r) (hrt : r.type = .XML_ELEMENT_NODE)
    (hslot : r._private = some e1)
    (hrootless : has_root document s = false) :
    ∃ s1, Root [Value.obj e1] This s = some (Completion.returned (Value.obj e1) s1)
      ∧ (∃ message, Root [e2] This s1 = some (Completion.threw message s1))
      ∧ Root [] This s1 = some (Completion.returned (Value.obj e1) s1) := by
  have hnone : xmlDocGetRootElement s document = none := by
    simpa [has_root] using hrootless
  obtain ⟨hget, hobj, hsl⟩ := set_root_rootless s document n1 d r hd hdt hr hrt hnone
  have hThis1 : Unwrap_Document (set_root document n1 s) This = some document := by
    unfold Unwrap_Document at hThis ⊢
    rw [hobj]
    exact hThis
  have hs1 : (set_root document n1 s).slot n1 = some e1 := by
    rw [hsl]
    simp [State.slot, hr, hslot]
  refine ⟨set_root document n1 s, ?_, ⟨"This document already has a root node", ?_⟩, ?_⟩
  · simp [Root, hThis, hrootless, arg, he]
  · simp [Root, hThis1, has_root, hget]
  · simp [Root, hThis1, get_root, hget, hs1]

/-- C2 at the example store with a rootless document and two elements. -/
theorem second_root_fails_witness :
    (Unwrap_Document twoElementsState 0 = some 0
      ∧ twoElementsState.nodes[0]?
          = some { zeroed .XML_DOCUMENT_NODE with
                   doc := some 0, version := some "1.0", _private := some 0 }
      ∧ Unwrap_Element twoElementsState 1 = some 1
      ∧ twoElementsState.nodes[1]? = some { zeroed .XML_ELEMENT_NODE with _private := some 1 }
      ∧ has_root 0 twoElementsState = false)
    ∧ ∃ s1, Root [Value.obj 1] 0 twoElementsState = some (Completion.returned (Value.obj 1) s1)
      ∧ (∃ message, Root [Value.obj 2] 0 s1 = some (Completion.threw message s1))
      ∧ Root [] 0 s1 = some (Completion.returned (Value.obj 1) s1) :=
  ⟨⟨by decide, by decide, by decide, by decide, by decide⟩,
   second_root_fails twoElementsState 0 0 1 1 _ _ (Value.obj 2)
     (by decide) (by decide : twoElementsState.nodes[0]? = some { zeroed .XML_DOCUMENT_NODE with
                   doc := some 0, version := some "1.0", _private := some 0 }) rfl
     (by decide) (by decide : twoElementsState.nodes[1]?
        = some { zeroed .XML_ELEMENT_NODE with _private := some 1 }) rfl rfl (by decide)⟩

/-- C3 (construction argument validation).  For one to three arguments other than the
single `null`, `Document::New` throws a "Bad argument" error naming the call shapes
exactly when the arguments match none of the documented shapes; `newDocument(42)`
throws such an error, and the empty argument list is accepted. -/
theorem bad_argument_iff_undocumented (fuel : Nat) (args : List Value) (This : Nat) (s : State)
    (h1 : 1 ≤ args.length) (h3 : args.length ≤ 3) (hn : args ≠ [Value.null]) :
    ((∃ message, New (fuel + 2) args This s = some (Completion.threw message s)
          ∧ badArgument message = true)
        ↔ documentedShape args = false)
    ∧ (∃ message, New (fuel + 2) [Value.number 42] This s = some (Completion.threw message s)
          ∧ badArgument message = true)
    ∧ (∃ v s1, New (fuel + 2) [] This s = some (Completion.returned v s1)) := by
  refine ⟨⟨?_, ?_⟩, ?_, ?_⟩
  · rintro ⟨message, hthrow, _⟩
    cases hshape : documentedShape args with
    | false => rfl
    | true =>
      obtain ⟨s1, hret, _⟩ := New_accepted fuel args This s (Or.inr hshape)
      rw [hret] at hthrow
      cases hthrow
  · intro hshape
    obtain ⟨message, hsw, hbad⟩ := New_switch_rejected args s h1 h3 hn hshape
    exact ⟨message, by rw [New, hsw], hbad⟩
  · obtain ⟨message, hsw, hbad⟩ :=
      New_switch_rejected [Value.number 42] s (by decide) (by decide) (by decide) rfl
    exact ⟨message, by rw [New, hsw], hbad⟩
  · obtain ⟨s1, hret, _⟩ := New_accepted fuel [] This s (Or.inl rfl)
    exact ⟨_, s1, hret⟩

/-- C3 at the arguments ("1.0", 1) on the empty store. -/
theorem bad_argument_iff_undocumented_witness :
    (1 ≤ [Value.str "1.0", Value.number 1].length
      ∧ [Value.str "1.0", Value.number 1].length ≤ 3
      ∧ [Value.str "1.0", Value.number 1] ≠ [Value.null])
    ∧ (((∃ message, New 2 [Value.str "1.0", Value.number 1] 0 State.empty
              = some (Completion.threw message State.empty)
            ∧ badArgument message = true)
          ↔ documentedShape [Value.str "1.0", Value.number 1] = false)
      ∧ (∃ message, New 2 [Value.number 42] 0 State.empty
              = some (Completion.threw message State.empty)
            ∧ badArgument message = true)
      ∧ (∃ v s1, New 2 [] 0 State.empty = some (Completion.returned v s1))) :=
  ⟨⟨by decide, by decide, by decide⟩,
   bad_argument_iff_undocumented 0 [Value.str "1.0", Value.number 1] 0 State.empty
     (by decide) (by decide) (by decide)⟩

/-- C5 at `encoding("UTF-16")` on a fresh document: the setter returns, leaving
`xml_obj->encoding` pointing at the buffer of the handler's local `Utf8Value`, which is
released on return; the following `encoding()` reads that released buffer, so it has
no defined result, and in particular does not return "UTF-16". -/
theorem encoding_readback_undefined :
    New 2 [] 0 State.empty = some (Completion.returned (Value.obj 0) docState)
    ∧ Encoding [Value.str "UTF-16"] 0 docState
        = some (Completion.returned (Value.obj 0) staleState)
    ∧ (staleState.nodes[0]?).bind (fun d => d.encoding) = some 1
    ∧ staleState.buffers[1]? = some { chars := "UTF-16", live := false }
    ∧ Encoding [] 0 staleState = none
    ∧ Encoding [] 0 staleState ≠ some (Completion.returned (Value.str "UTF-16") staleState) := by
  decide

/-- C6, as the code has it.  `Document::to_string` asks the engine for a dump in "UTF-8"
with format 0, whatever the store holds as the document's encoding; the handler
`Document::ToString` returns that dump and leaves the store as it was. -/
theorem to_string_requests_UTF8 (engine : State → Nat → String → Int → String)
    (This document : Nat) (s : State) :
    to_string engine document s = Value.str (engine s document "UTF-8" 0)
    ∧ (Unwrap_Document s This = some document →
        ToString engine This s
          = some (Completion.returned (Value.str (engine s document "UTF-8" 0)) s)) := by
  refine ⟨rfl, ?_⟩
  intro h
  simp [ToString, h, to_string]

/-- C6 at the document built by `new Document("1.0", "UTF-16")`. -/
theorem to_string_requests_UTF8_witness :
    Unwrap_Document utf16State 0 = some 0
    ∧ to_string echoEncoding 0 utf16State = Value.str (echoEncoding utf16State 0 "UTF-8" 0)
    ∧ ToString echoEncoding 0 utf16State
        = some (Completion.returned (Value.str (echoEncoding utf16State 0 "UTF-8" 0)) utf16State) :=
  ⟨by decide, (to_string_requests_UTF8 echoEncoding 0 0 utf16State).1,
   (to_string_requests_UTF8 echoEncoding 0 0 utf16State).2 (by decide)⟩

/-- C6, as stated, fails: after `new Document("1.0", "UTF-16")` the document's encoding
is "UTF-16", yet the dump is requested in "UTF-8" (an engine that answers with the
name of the requested encoding answers "UTF-8", not "UTF-16"). -/
theorem to_string_ignores_encoding :
    New 2 [Value.str "1.0", Value.str "UTF-16"] 0 State.empty
        = some (Completion.returned (Value.obj 0) utf16State)
    ∧ get_encoding 0 utf16State = some (Value.str "UTF-16")
    ∧ to_string echoEncoding 0 utf16State = Value.str "UTF-8"
    ∧ to_string echoEncoding 0 utf16State ≠ Value.str (echoEncoding utf16State 0 "UTF-16" 0) := by
  decide

/-- C7, as the code has it.  The hook has no guard against a second invocation: on a
Document- or Element-typed node whose slot already holds a wrapper `o`, it completes,
creates a fresh host object and overwrites the slot with it, so the slot no longer
holds `o`; on a node of any other type the slot keeps `o`. -/
theorem hook_again_overwrites (fuel : Nat) (node : Nat) (s : State) (n : xmlNode) (o : Nat)
    (h : s.nodes[node]? = some n) (ho : n._private = some o) (hlive : o < s.objects.length) :
    ∃ s1, on_libxml_construct (New (fuel + 1)) node s = some s1
      ∧ (n.type = .XML_DOCUMENT_NODE ∨ n.type = .XML_ELEMENT_NODE →
          s1.slot node = some s.objects.length ∧ s1.slot node ≠ some o
          ∧ s1.objects.length = s.objects.length + 1)
      ∧ (n.type ≠ .XML_DOCUMENT_NODE → n.type ≠ .XML_ELEMENT_NODE →
          s1.slot node = some o ∧ s1.objects = s.objects) := by
  have hne : some s.objects.length ≠ some o := by
    intro heq
    injection heq with heq
    omega
  by_cases hd : n.type = .XML_DOCUMENT_NODE
  · obtain ⟨s1, hs1, hslot, hobj, _⟩ := hook_document fuel node s n h hd
    refine ⟨s1, hs1, ?_, ?_⟩
    · intro _
      exact ⟨hslot, hslot ▸ hne, by simp [hobj]⟩
    · intro hnd
      exact absurd hd hnd
  · by_cases he : n.type = .XML_ELEMENT_NODE
    · obtain ⟨s1, hs1, hslot, hobj, _⟩ := hook_element (New (fuel + 1)) node s n h he
      refine ⟨s1, hs1, ?_, ?_⟩
      · intro _
        exact ⟨hslot, hslot ▸ hne, by simp [hobj]⟩
      · intro _ hne2
        exact absurd he hne2
    · refine ⟨_, hook_other (New (fuel + 1)) node s n h hd he, ?_, ?_⟩
      · rintro (h1 | h1)
        · exact absurd h1 hd
        · exact absurd h1 he
      · intro _ _
        exact ⟨by simp [State.slot, h, ho], rfl⟩

/-- C7 at the element the hook has already registered once. -/
theorem hook_again_overwrites_witness :
    (elementState.nodes[0]? = some { zeroed .XML_ELEMENT_NODE with _private := some 0 }
      ∧ 0 < elementState.objects.length)
    ∧ ∃ s1, on_libxml_construct (New 1) 0 elementState = some s1
      ∧ ((zeroed .XML_ELEMENT_NODE).type = .XML_DOCUMENT_NODE
            ∨ (zeroed .XML_ELEMENT_NODE).type = .XML_ELEMENT_NODE →
          s1.slot 0 = some elementState.objects.length ∧ s1.slot 0 ≠ some 0
          ∧ s1.objects.length = elementState.objects.length + 1)
      ∧ ((zeroed .XML_ELEMENT_NODE).type ≠ .XML_DOCUMENT_NODE →
          (zeroed .XML_ELEMENT_NODE).type ≠ .XML_ELEMENT_NODE →
          s1.slot 0 = some 0 ∧ s1.objects = elementState.objects) :=
  ⟨⟨by decide, by decide⟩,
   hook_again_overwrites 0 0 elementState { zeroed .XML_ELEMENT_NODE with _private := some 0 } 0
     (by decide) rfl (by decide)⟩

/-- C7, as stated, fails: the engine allocates an element on the empty store and the hook
registers wrapper 0 in its slot; a second invocation of the hook on that node is not
rejected, it completes and leaves wrapper 1 in the slot. -/
theorem hook_again_not_rejected :
    xmlNewNode (on_libxml_construct (New 2)) State.empty = some (0, elementState)
    ∧ elementState.slot 0 = some 0
    ∧ (on_libxml_construct (New 2) 0 elementState).map (fun s1 => s1.slot 0) = some (some 1)
    ∧ (on_libxml_construct (New 2) 0 elementState).map (fun s1 => s1.slot 0)
        ≠ some (elementState.slot 0) := by
  decide

/-- C8 (hook dispatch).  On a node of the store the hook completes; for a Document-typed
node it stores in the node's slot a fresh host object wrapping a `Document` on
`node->doc`; for an Element-typed node a fresh host object wrapping an `Element` on the
node; for every other type it leaves all nodes (so every slot) and all host objects
as they were. -/
theorem hook_dispatch (fuel : Nat) (node : Nat) (s : State) (n : xmlNode)
    (h : s.nodes[node]? = some n) :
    ∃ s1, on_libxml_construct (New (fuel + 1)) node s = some s1
      ∧ (n.type = .XML_DOCUMENT_NODE →
          s1.slot node = some s.objects.length
          ∧ s1.objects = s.objects ++ [{ internal := some (.Document n.doc) }])
      ∧ (n.type = .XML_ELEMENT_NODE →
          s1.slot node = some s.objects.length
          ∧ s1.objects = s.objects ++ [{ internal := some (.Element node) }])
      ∧ (n.type ≠ .XML_DOCUMENT_NODE → n.type ≠ .XML_ELEMENT_NODE →
          s1.nodes = s.nodes ∧ s1.objects = s.objects) := by
  by_cases hd : n.type = .XML_DOCUMENT_NODE
  · obtain ⟨s1, hs1, hslot, hobj, _⟩ := hook_document fuel node s n h hd
    refine ⟨s1, hs1, fun _ => ⟨hslot, hobj⟩, ?_, ?_⟩
    · intro he
      rw [hd] at he
      exact absurd he (by decide)
    · intro hnd
      exact absurd hd hnd
  · by_cases he : n.type = .XML_ELEMENT_NODE
    · obtain ⟨s1, hs1, hslot, hobj, _⟩ := hook_element (New (fuel + 1)) node s n h he
      exact ⟨s1, hs1, fun hd2 => absurd hd2 hd, fun _ => ⟨hslot, hobj⟩,
        fun _ hne => absurd he hne⟩
    · exact ⟨_, hook_other (New (fuel + 1)) node s n h hd he, fun hd2 => absurd hd2 hd,
        fun he2 => absurd he2 he, fun _ _ => ⟨rfl, rfl⟩⟩

/-- C8 at a text node: nothing is registered. -/
theorem hook_dispatch_witness :
    [zeroed .XML_TEXT_NODE][0]? = some (zeroed .XML_TEXT_NODE)
    ∧ ∃ s1, on_libxml_construct (New 1) 0 { State.empty with nodes := [zeroed .XML_TEXT_NODE] }
          = some s1
      ∧ ((zeroed .XML_TEXT_NODE).type = .XML_DOCUMENT_NODE →
          s1.slot 0 = some 0
          ∧ s1.objects = [] ++ [{ internal := some (.Document (zeroed .XML_TEXT_NODE).doc) }])
      ∧ ((zeroed .XML_TEXT_NODE).type = .XML_ELEMENT_NODE →
          s1.slot 0 = some 0
          ∧ s1.objects = [] ++ [{ internal := some (.Element 0) }])
      ∧ ((zeroed .XML_TEXT_NODE).type ≠ .XML_DOCUMENT_NODE →
          (zeroed .XML_TEXT_NODE).type ≠ .XML_ELEMENT_NODE →
          s1.nodes = [zeroed .XML_TEXT_NODE] ∧ s1.objects = []) :=
  ⟨rfl, hook_dispatch 0 0 { State.empty with nodes := [zeroed .XML_TEXT_NODE] }
    (zeroed .XML_TEXT_NODE) rfl⟩

/-- C9, as the code has it.  Whenever `root(element)` is called on a document that already
has a root, the error carries exactly the message "This document already has a root
node" (no full stop at the end), and the store is left as it was. -/
theorem double_root_message (args : List Value) (This document : Nat) (s : State)
    (hThis : Unwrap_Document s This = some document)
    (hargs : args ≠ [])
    (hrooted : has_root document s = true) :
    Root args This s = some (Completion.threw "This document already has a root node" s) := by
  have hlen : args.length ≠ 0 := by
    intro h0
    exact hargs (List.length_eq_zero.mp h0)
  simp [Root, hThis, hlen, hrooted]

/-- C9 at `root(e2)` on the rooted example store. -/
theorem double_root_message_witness :
    (Unwrap_Document rootedState 0 = some 0
      ∧ [Value.obj 2] ≠ []
      ∧ has_root 0 rootedState = true)
    ∧ Root [Value.obj 2] 0 rootedState
        = some (Completion.threw "This document already has a root node" rootedState) :=
  ⟨⟨by decide, by decide, by decide⟩,
   double_root_message [Value.obj 2] 0 0 rootedState (by decide) (by decide) (by decide)⟩

/-- C9, as stated, fails: on the rooted document reached by `new Document()`, two element
allocations and `root(e1)`, the call `root(e2)` throws a message that is not
"This document already has a root node." (it lacks the full stop). -/
theorem root_error_lacks_full_stop :
    Root [Value.obj 1] 0 twoElementsState = some (Completion.returned (Value.obj 1) rootedState)
    ∧ has_root 0 rootedState = true
    ∧ Root [Value.obj 2] 0 rootedState
        = some (Completion.threw "This document already has a root node" rootedState)
    ∧ Root [Value.obj 2] 0 rootedState
        ≠ some (Completion.threw "This document already has a root node." rootedState) := by
  decide

end libxmljs
